import Mathlib

/-!
Shallow embedding of `src/python/bridge.py` (HolidayTripVote): a serial-to-cloud
vote bridge.  Python dictionaries over integer keys are modelled as association
lists (`Dict`), Python `int` values as `Int`, timestamps as `Int`.  Exceptions
are modelled explicitly: the parser and the upload routine catch everything
relevant, and `fetch_votes_from_thingspeak` is split into a try-block outcome
(`FetchTryOutcome`) plus the except/fallback glue, so that partially mutated
state at a raise point is visible.
-/

set_option autoImplicit false

namespace Bridge

/-! ## Python dictionaries as association lists -/

/-- Python dict with int keys and int values, as an association list
(insertion order preserved, keys distinct in all states we build). -/
abbrev Dict := List (Int × Int)

/-- `d.get(k)` / `k in d` support: first binding of key `k`. -/
def dictLookup : Dict → Int → Option Int
  | [], _ => none
  | (k', v) :: rest, k => if k' = k then some v else dictLookup rest k

/-- `k in d` (Python key membership). -/
def dictMem (d : Dict) (k : Int) : Bool :=
  (dictLookup d k).isSome

/-- `d[k]` where the key is present (0 as a formal default for absent keys). -/
def dictGet (d : Dict) (k : Int) : Int :=
  (dictLookup d k).getD 0

/-- `d[k] = v`: replace in place when the key exists, append when new
(Python dict update semantics including insertion order). -/
def dictSet : Dict → Int → Int → Dict
  | [], k, v => [(k, v)]
  | (k', v') :: rest, k, v =>
    if k' = k then (k', v) :: rest else (k', v') :: dictSet rest k v

/-! ## Python string helpers: `str.strip`, `str.split`, `int(...)` -/

/-- ASCII whitespace stripped by Python `str.strip()` on the inputs at hand. -/
def isPySpace (c : Char) : Bool :=
  c = ' ' || c = '\t' || c = '\n' || c = '\r' || c = '\x0b' || c = '\x0c'

/-- `line.strip()`. -/
def pyStrip (s : String) : String :=
  String.mk (((s.data.dropWhile isPySpace).reverse.dropWhile isPySpace).reverse)

/-- Value of an ASCII decimal digit. -/
def digitVal (c : Char) : Option Nat :=
  if c.isDigit then some (c.toNat - 48) else none

/-- Digit tail of Python `int(...)`: digits with single underscores allowed
between digits (Python 3 numeric-literal grouping). -/
def pyDigitsAux : List Char → Nat → Option Nat
  | [], acc => some acc
  | '_' :: rest, acc =>
    match rest with
    | c :: rest2 =>
      match digitVal c with
      | some d => pyDigitsAux rest2 (acc * 10 + d)
      | none => none
    | [] => none
  | c :: rest, acc =>
    match digitVal c with
    | some d => pyDigitsAux rest (acc * 10 + d)
    | none => none

/-- Unsigned part of Python `int(...)`: at least one digit, must start with a
digit. -/
def pyNat : List Char → Option Nat
  | [] => none
  | c :: rest =>
    match digitVal c with
    | some d => pyDigitsAux rest d
    | none => none

/-- Python `int(...)` on a character list: strip whitespace, optional sign,
digits.  `none` models the `ValueError` Python raises. -/
def pyIntChars (l : List Char) : Option Int :=
  match (((l.dropWhile isPySpace).reverse.dropWhile isPySpace).reverse) with
  | '+' :: rest => (pyNat rest).map Int.ofNat
  | '-' :: rest => (pyNat rest).map (fun n => -(n : Int))
  | l' => (pyNat l').map Int.ofNat

/-- Python `int(s)` on a string. -/
def pyInt (s : String) : Option Int :=
  pyIntChars s.data

/-- Python `s.split(sep)` for a one-character separator (always returns at
least one piece: `"".split(',') == [""]`). -/
def splitOnChar (sep : Char) : List Char → List (List Char)
  | [] => [[]]
  | c :: rest =>
    if c = sep then [] :: splitOnChar sep rest
    else
      match splitOnChar sep rest with
      | t :: ts => (c :: t) :: ts
      | [] => [[c]]

/-! ## Configuration and state (bridge.py module globals) -/

/-- `UPLOAD_INTERVAL = 15` (ThingSpeak free-tier minimum, seconds). -/
def UPLOAD_INTERVAL : Int := 15

/-- `CANDIDATES` — candidate id to display name. -/
def CANDIDATES : List (Int × String) :=
  [(1, "Japan"), (2, "Germany"), (3, "Switzerland"), (4, "Norway")]

/-- The mutable module state: `votes`, `votes_since_last_upload`,
`last_upload_time`. -/
structure BridgeState where
  votes : Dict
  pending : Int
  lastUpload : Int
deriving Repr, DecidableEq

/-- `votes = {1: 0, 2: 0, 3: 0, 4: 0}`. -/
def initVotes : Dict := [(1, 0), (2, 0), (3, 0), (4, 0)]

/-- Module state at import time: zero tally, no pending votes, epoch 0. -/
def initState : BridgeState := ⟨initVotes, 0, 0⟩

/-! ## Event parsing and vote recording (`process_vote`) -/

/-- The parse phase of `process_vote`: strip, split on commas, require exactly
two tokens with the first literally `VOTE` and the second a Python int.
`none` covers wrong token count, wrong tag, and the caught `ValueError`. -/
def parseVote (line : String) : Option Int :=
  match splitOnChar ',' (pyStrip line).data with
  | [tag, num] =>
    if tag = ("VOTE").data then pyIntChars num else none
  | _ => none

/-- Result of `process_vote`: the new module state, the returned bool, and
whether `log_vote` (audit append) and `save_votes` (persistence) ran. -/
structure PVResult where
  state : BridgeState
  accepted : Bool
  audited : Bool
  saved : Bool
deriving Repr, DecidableEq

/-- `process_vote(line)`: on a parsed vote for a known candidate, increment its
count and the pending counter, append to the audit log, persist, return True;
on every other line return False touching nothing. -/
def process_vote (st : BridgeState) (line : String) : PVResult :=
  match parseVote line with
  | some cid =>
    if dictMem st.votes cid then
      { state :=
          { st with
            votes := dictSet st.votes cid (dictGet st.votes cid + 1)
            pending := st.pending + 1 }
        accepted := true
        audited := true
        saved := true }
    else ⟨st, false, false, false⟩
  | none => ⟨st, false, false, false⟩

/-! ## Upload (`should_upload`, `upload_to_thingspeak`) -/

/-- What the HTTP POST to ThingSpeak came back with: a response with a status
code and body text, or a transport-level `RequestException`. -/
inductive UploadResponse where
  | ok (status : Nat) (body : String)
  | netError
deriving Repr, DecidableEq

/-- `should_upload()` at wall-clock time `now`: enough time elapsed since the
last successful upload AND new votes pending. -/
def should_upload (st : BridgeState) (now : Int) : Bool :=
  decide (now - st.lastUpload ≥ UPLOAD_INTERVAL) && decide (st.pending > 0)

/-- `upload_to_thingspeak()` at time `now`, given the response the remote
produced: success iff status 200 and body not the "0" error sentinel, in which
case the pending counter resets and the timestamp is set to `now`; any failure
(non-200, "0" body, transport error) leaves the state untouched and returns
False. -/
def upload_to_thingspeak (st : BridgeState) (now : Int) (resp : UploadResponse) :
    BridgeState × Bool :=
  match resp with
  | .ok status body =>
    if status = 200 ∧ body ≠ "0" then
      ({ st with lastUpload := now, pending := 0 }, true)
    else (st, false)
  | .netError => (st, false)

/-! ## Remote fetch (`fetch_votes_from_thingspeak`) and local file fallback -/

/-- A JSON field value as it matters to `int(data.get(field) or 0)`:
a string, an integer, or JSON null. -/
inductive JVal where
  | s (str : String)
  | n (i : Int)
  | null
deriving Repr, DecidableEq

/-- The ThingSpeak last-feed JSON object, reduced to the four fields the code
reads; `none` for an absent key. -/
structure Feed where
  field1 : Option JVal
  field2 : Option JVal
  field3 : Option JVal
  field4 : Option JVal
deriving Repr, DecidableEq

/-- The body of a 200 response: `response.json()` raised on malformed JSON, or
produced falsy data (`None` or `{}`), or a feed object. -/
inductive Body where
  | malformed
  | json (data : Option Feed)
deriving Repr, DecidableEq

/-- What `requests.get` produced: a response (status + body) or a raised
transport exception. -/
inductive FetchResponse where
  | ok (status : Nat) (body : Body)
  | netError
deriving Repr, DecidableEq

/-- `int(data.get(field) or 0)`: absent key, null, `0` and `""` are falsy and
give 0; an int passes through; a non-empty string goes through `int(...)`,
whose `ValueError` is `none`. -/
def intOr0 : Option JVal → Option Int
  | none => some 0
  | some JVal.null => some 0
  | some (JVal.n i) => some i
  | some (JVal.s str) => if str = "" then some 0 else pyInt str

/-- The local `votes.json` file: absent, unparseable, or a saved dict. -/
inductive LocalFile where
  | absent
  | malformed
  | content (d : Dict)
deriving Repr, DecidableEq

/-- `load_votes_from_file()`: overwrite `votes` with the file contents when the
file exists and parses; otherwise (missing file, or any exception, caught)
leave `votes` as they were. -/
def load_votes_from_file (st : BridgeState) (f : LocalFile) : BridgeState :=
  match f with
  | .content d => { st with votes := d }
  | _ => st

/-- How the try block of `fetch_votes_from_thingspeak` ended: `return True`
reached (state fully overwritten from the remote), fell through the end of the
block without returning, or an exception was raised (and caught); in each case
carrying the module state at that point — an exception raised between the
field assignments leaves the earlier assignments in place. -/
inductive FetchTryOutcome where
  | success (st : BridgeState)
  | fallthrough (st : BridgeState)
  | raised (st : BridgeState)
deriving Repr, DecidableEq

/-- The try block of `fetch_votes_from_thingspeak`: GET the last feed; on
status 200 with truthy data containing `field1`, assign
`votes[1] .. votes[4]` from the fields one after the other (any conversion
`ValueError` raises with the earlier assignments already done), print, and
return True.  Non-200 status and missing data fall through; transport errors
and malformed JSON raise. -/
def fetchTry (st : BridgeState) (resp : FetchResponse) : FetchTryOutcome :=
  match resp with
  | .netError => .raised st
  | .ok status body =>
    if status = 200 then
      match body with
      | .malformed => .raised st
      | .json none => .fallthrough st
      | .json (some feed) =>
        if (feed.field1).isSome then
          match intOr0 feed.field1 with
          | none => .raised st
          | some v1 =>
            let st1 := { st with votes := dictSet st.votes 1 v1 }
            match intOr0 feed.field2 with
            | none => .raised st1
            | some v2 =>
              let st2 := { st1 with votes := dictSet st1.votes 2 v2 }
              match intOr0 feed.field3 with
              | none => .raised st2
              | some v3 =>
                let st3 := { st2 with votes := dictSet st2.votes 3 v3 }
                match intOr0 feed.field4 with
                | none => .raised st3
                | some v4 =>
                  .success { st3 with votes := dictSet st3.votes 4 v4 }
        else .fallthrough st
    else .fallthrough st

/-- `fetch_votes_from_thingspeak()`: run the try block; on `return True` hand
back the synced state; on fall-through or a caught exception, fall back to
`load_votes_from_file()` and return False.  Total: no exception escapes. -/
def fetch_votes_from_thingspeak (st : BridgeState) (resp : FetchResponse)
    (f : LocalFile) : BridgeState × Bool :=
  match fetchTry st resp with
  | .success st' => (st', true)
  | .fallthrough st' => (load_votes_from_file st' f, false)
  | .raised st' => (load_votes_from_file st' f, false)

/-! ## Startup (`main`, before the processing loop) -/

/-- The environment `main` starts in: what the remote would answer if fetched,
the local votes file, and the wall-clock time at startup. -/
structure Env where
  remote : FetchResponse
  file : LocalFile
  startTime : Int
deriving Repr, DecidableEq

/-- The state `main` enters the processing loop with: it calls only
`load_votes_from_file()` (the comment in `main` says the LOCAL file is the
source of truth) and sets `last_upload_time = time.time()`.  The environment's
`remote` component is never consulted: `fetch_votes_from_thingspeak` is defined
but `main` never calls it. -/
def startup (e : Env) : BridgeState :=
  { load_votes_from_file initState e.file with lastUpload := e.startTime }

/-! ## The processing loop and shutdown (`main`) -/

/-- One processing-loop state change: either a serial line is processed by
`process_vote` (the loop hands every `VOTE,`-starting line to it; taking
arbitrary lines only enlarges the behaviour set), or `upload_to_thingspeak`
runs when `should_upload()` fired, or the final best-effort upload runs during
shutdown with no interval gate. -/
inductive Step : BridgeState → BridgeState → Prop where
  | line (st : BridgeState) (l : String) :
      Step st (process_vote st l).state
  | upload (st : BridgeState) (now : Int) (resp : UploadResponse) :
      should_upload st now = true →
      Step st (upload_to_thingspeak st now resp).1
  | finalUpload (st : BridgeState) (now : Int) (resp : UploadResponse) :
      st.pending > 0 →
      Step st (upload_to_thingspeak st now resp).1

/-- States reachable from `s` by processing-loop steps. -/
def Reachable (s : BridgeState) (s' : BridgeState) : Prop :=
  Relation.ReflTransGen Step s s'

/-- Outcome of the `KeyboardInterrupt` handler in `main`: whether the final
upload was attempted, the state afterwards, and the process exit code. -/
structure ShutdownResult where
  finalUploadAttempted : Bool
  state : BridgeState
  exitCode : Nat
deriving Repr, DecidableEq

/-- The `KeyboardInterrupt` handler: print status, attempt one final upload
exactly when `votes_since_last_upload > 0` (no `should_upload` interval
check), close the serial port, and return from `main` — exit code 0 whatever
the upload did. -/
def shutdown (st : BridgeState) (now : Int) (resp : UploadResponse) :
    ShutdownResult :=
  if st.pending > 0 then
    ⟨true, (upload_to_thingspeak st now resp).1, 0⟩
  else ⟨false, st, 0⟩

/-! ## Snapshot (the payload built by `upload_to_thingspeak`, lines 246-252) -/

/-- The ThingSpeak payload: four freshly read integer field values.  Building
it copies the current counts out of `votes`; the dict itself is not handed
out. -/
structure Payload where
  field1 : Int
  field2 : Int
  field3 : Int
  field4 : Int
deriving Repr, DecidableEq

/-- The read-only snapshot `upload_to_thingspeak` takes of the tally:
`field1 = votes[1], ..., field4 = votes[4]`. -/
def snapshot (st : BridgeState) : Payload :=
  ⟨dictGet st.votes 1, dictGet st.votes 2, dictGet st.votes 3, dictGet st.votes 4⟩

/-- `process_vote` applied `n` times to the same line (the spec's
"repeated `record_vote(id)` N times"). -/
def recordN (line : String) (st : BridgeState) : Nat → BridgeState
  | 0 => st
  | n + 1 => (process_vote (recordN line st n) line).state

/-- A processing-loop step that records no vote event: a line `process_vote`
rejects, or an upload (periodic or final); these are exactly the state changes
that can happen between two snapshots with no intervening vote event. -/
inductive NonVoteStep : BridgeState → BridgeState → Prop where
  | line (st : BridgeState) (l : String) :
      (process_vote st l).accepted = false →
      NonVoteStep st (process_vote st l).state
  | upload (st : BridgeState) (now : Int) (resp : UploadResponse) :
      should_upload st now = true →
      NonVoteStep st (upload_to_thingspeak st now resp).1
  | finalUpload (st : BridgeState) (now : Int) (resp : UploadResponse) :
      st.pending > 0 →
      NonVoteStep st (upload_to_thingspeak st now resp).1

/-! ## Helper lemmas -/

theorem dictLookup_dictSet (d : Dict) (k v j : Int) :
    dictLookup (dictSet d k v) j = if k = j then some v else dictLookup d j := by
  induction d with
  | nil =>
    by_cases hj : k = j <;> simp [dictSet, dictLookup, hj]
  | cons p rest ih =>
    obtain ⟨k', v'⟩ := p
    by_cases h : k' = k
    · subst h
      by_cases hj : k' = j <;> simp [dictSet, dictLookup, hj]
    · by_cases hj : k' = j
      · subst hj
        have hkj : ¬ k = k' := fun hh => h hh.symm
        simp [dictSet, dictLookup, h, hkj]
      · simp [dictSet, dictLookup, h, hj, ih]

theorem dictGet_dictSet (d : Dict) (k v j : Int) :
    dictGet (dictSet d k v) j = if k = j then v else dictGet d j := by
  unfold dictGet
  rw [dictLookup_dictSet]
  by_cases hj : k = j <;> simp [hj]

theorem dictMem_dictSet_self (d : Dict) (k v : Int) :
    dictMem (dictSet d k v) k = true := by
  simp [dictMem, dictLookup_dictSet]

/-- A line `process_vote` accepts turns into exactly one increment of the
candidate's count and of the pending counter, with audit and persistence. -/
theorem process_vote_accept (st : BridgeState) (l : String) (cid : Int)
    (hp : parseVote l = some cid) (hm : dictMem st.votes cid = true) :
    process_vote st l =
      ⟨⟨dictSet st.votes cid (dictGet st.votes cid + 1), st.pending + 1,
        st.lastUpload⟩, true, true, true⟩ := by
  simp [process_vote, hp, hm]

/-- A vote line for a candidate outside the tally is a complete no-op. -/
theorem process_vote_reject_unknown (st : BridgeState) (l : String) (cid : Int)
    (hp : parseVote l = some cid) (hm : dictMem st.votes cid = false) :
    process_vote st l = ⟨st, false, false, false⟩ := by
  simp [process_vote, hp, hm]

/-- A non-vote line is a complete no-op. -/
theorem process_vote_reject_noparse (st : BridgeState) (l : String)
    (hp : parseVote l = none) :
    process_vote st l = ⟨st, false, false, false⟩ := by
  simp [process_vote, hp]

/-- Every line is either accepted or a complete no-op (the model's rendering
of "no input line raises to the caller"). -/
theorem process_vote_total (st : BridgeState) (l : String) :
    (process_vote st l).accepted = true ∨
      process_vote st l = ⟨st, false, false, false⟩ := by
  cases hp : parseVote l with
  | none => exact Or.inr (process_vote_reject_noparse st l hp)
  | some cid =>
    by_cases hm : dictMem st.votes cid = true
    · exact Or.inl (by rw [process_vote_accept st l cid hp hm])
    · exact Or.inr (process_vote_reject_unknown st l cid hp
        (by simpa using hm))

/-- A rejected line leaves the state untouched. -/
theorem process_vote_reject_state (st : BridgeState) (l : String)
    (h : (process_vote st l).accepted = false) :
    process_vote st l = ⟨st, false, false, false⟩ := by
  rcases process_vote_total st l with h1 | h1
  · rw [h1] at h; cases h
  · exact h1

/-- `process_vote` never decreases any count. -/
theorem process_vote_votes_mono (st : BridgeState) (l : String) (k : Int) :
    dictGet st.votes k ≤ dictGet (process_vote st l).state.votes k := by
  cases hp : parseVote l with
  | none => rw [process_vote_reject_noparse st l hp]
  | some cid =>
    by_cases hm : dictMem st.votes cid = true
    · rw [process_vote_accept st l cid hp hm]
      show dictGet st.votes k ≤ dictGet (dictSet st.votes cid _) k
      rw [dictGet_dictSet]
      by_cases hk : cid = k
      · subst hk; simp
      · simp [hk]
    · rw [process_vote_reject_unknown st l cid hp (by simpa using hm)]

/-- `process_vote` leaves the pending counter alone or increments it. -/
theorem process_vote_pending (st : BridgeState) (l : String) :
    (process_vote st l).state.pending = st.pending ∨
      (process_vote st l).state.pending = st.pending + 1 := by
  cases hp : parseVote l with
  | none => rw [process_vote_reject_noparse st l hp]; exact Or.inl rfl
  | some cid =>
    by_cases hm : dictMem st.votes cid = true
    · rw [process_vote_accept st l cid hp hm]; exact Or.inr rfl
    · rw [process_vote_reject_unknown st l cid hp (by simpa using hm)]
      exact Or.inl rfl

/-- An upload either fails leaving the state untouched, or succeeds resetting
the pending counter and stamping the time. -/
theorem upload_to_thingspeak_cases (st : BridgeState) (now : Int)
    (resp : UploadResponse) :
    upload_to_thingspeak st now resp = (st, false) ∨
      upload_to_thingspeak st now resp =
        ({ st with pending := 0, lastUpload := now }, true) := by
  cases resp with
  | netError => exact Or.inl rfl
  | ok status body =>
    by_cases h : status = 200 ∧ body ≠ "0"
    · exact Or.inr (by simp [upload_to_thingspeak, h])
    · exact Or.inl (by simp only [upload_to_thingspeak, if_neg h])

theorem load_votes_from_file_pending (st : BridgeState) (f : LocalFile) :
    (load_votes_from_file st f).pending = st.pending := by
  cases f <;> rfl

theorem startup_pending (e : Env) : (startup e).pending = 0 := by
  show (load_votes_from_file initState e.file).pending = 0
  rw [load_votes_from_file_pending]
  rfl

/-- Any processing-loop step keeps the pending counter non-negative. -/
theorem step_pending_nonneg {s s' : BridgeState} (h : Step s s')
    (h0 : 0 ≤ s.pending) : 0 ≤ s'.pending := by
  cases h with
  | line l =>
    rcases process_vote_pending s l with h1 | h1 <;> rw [h1] <;> omega
  | upload now resp _ =>
    rcases upload_to_thingspeak_cases s now resp with h1 | h1 <;>
      (rw [h1]; try exact h0)
  | finalUpload now resp _ =>
    rcases upload_to_thingspeak_cases s now resp with h1 | h1 <;>
      (rw [h1]; try exact h0)

/-- Any processing-loop step is monotone on every candidate's count. -/
theorem Step.votes_mono {s s' : BridgeState} (h : Step s s') (k : Int) :
    dictGet s.votes k ≤ dictGet s'.votes k := by
  cases h with
  | line l => exact process_vote_votes_mono s l k
  | upload now resp _ =>
    rcases upload_to_thingspeak_cases s now resp with h1 | h1 <;> rw [h1]
  | finalUpload now resp _ =>
    rcases upload_to_thingspeak_cases s now resp with h1 | h1 <;> rw [h1]

/-- Reachable states keep the pending counter non-negative. -/
theorem reachable_pending_nonneg {s s' : BridgeState} (h : Reachable s s')
    (h0 : 0 ≤ s.pending) : 0 ≤ s'.pending := by
  induction h with
  | refl => exact h0
  | tail _ hstep ih => exact step_pending_nonneg hstep ih

/-- Iterating a valid vote line for a known candidate: after `n` calls the
candidate's count and the pending counter have each grown by `n`, the
candidate is still known, and the next call is accepted too. -/
theorem recordN_spec (line : String) (cid : Int) (hp : parseVote line = some cid)
    (st : BridgeState) (hm : dictMem st.votes cid = true) (n : Nat) :
    dictGet (recordN line st n).votes cid = dictGet st.votes cid + n ∧
    (recordN line st n).pending = st.pending + n ∧
    dictMem (recordN line st n).votes cid = true ∧
    (process_vote (recordN line st n) line).accepted = true := by
  induction n with
  | zero =>
    refine ⟨by simp [recordN], by simp [recordN], by simpa [recordN] using hm, ?_⟩
    rw [recordN, process_vote_accept st line cid hp hm]
  | succ n ih =>
    obtain ⟨hcount, hpend, hmem, _⟩ := ih
    have hstep := process_vote_accept (recordN line st n) line cid hp hmem
    constructor
    · show dictGet (process_vote (recordN line st n) line).state.votes cid = _
      rw [hstep]
      show dictGet (dictSet _ cid _) cid = _
      rw [dictGet_dictSet]
      simp [hcount]
      ring
    constructor
    · show (process_vote (recordN line st n) line).state.pending = _
      rw [hstep]
      show (recordN line st n).pending + 1 = _
      rw [hpend]
      push_cast
      omega
    constructor
    · show dictMem (process_vote (recordN line st n) line).state.votes cid = true
      rw [hstep]
      exact dictMem_dictSet_self _ cid _
    · have hmem' : dictMem (recordN line st (n + 1)).votes cid = true := by
        show dictMem (process_vote (recordN line st n) line).state.votes cid = true
        rw [hstep]
        exact dictMem_dictSet_self _ cid _
      rw [process_vote_accept (recordN line st (n + 1)) line cid hp hmem']

/-- Every count in the import-time tally is zero. -/
theorem dictGet_initVotes (cid : Int) : dictGet initVotes cid = 0 := by
  simp only [dictGet, dictLookup, initVotes]
  by_cases h1 : (1 : Int) = cid <;> by_cases h2 : (2 : Int) = cid <;>
    by_cases h3 : (3 : Int) = cid <;> by_cases h4 : (4 : Int) = cid <;>
    simp [h1, h2, h3, h4]

/-- A step with no vote event leaves the snapshot unchanged. -/
theorem NonVoteStep.snapshot_eq {s s' : BridgeState} (h : NonVoteStep s s') :
    snapshot s' = snapshot s := by
  cases h with
  | line l hrej => rw [process_vote_reject_state s l hrej]
  | upload now resp _ =>
    rcases upload_to_thingspeak_cases s now resp with h1 | h1 <;>
      (rw [h1]; try rfl)
  | finalUpload now resp _ =>
    rcases upload_to_thingspeak_cases s now resp with h1 | h1 <;>
      (rw [h1]; try rfl)

/-! ## The claims -/

/-- C1 (counterexample): the remote state can be available, well-formed and
non-empty — `fetch_votes_from_thingspeak` would return it, a tally of all 9s —
while `main`'s startup still sets the tally to the local file's contents
`{1:3, 2:5, 3:0, 4:1}`, not to the remote state: the claimed remote-first
reconciliation does not happen at startup. -/
theorem C1_counterexample_startup_ignores_remote :
    (fetch_votes_from_thingspeak initState
        (.ok 200 (.json (some ⟨some (.n 9), some (.n 9), some (.n 9), some (.n 9)⟩)))
        .absent
      = (⟨[(1, 9), (2, 9), (3, 9), (4, 9)], 0, 0⟩, true)) ∧
    (startup ⟨.ok 200 (.json (some ⟨some (.n 9), some (.n 9), some (.n 9), some (.n 9)⟩)),
        .content [(1, 3), (2, 5), (3, 0), (4, 1)], 1000⟩).votes
      = [(1, 3), (2, 5), (3, 0), (4, 1)] ∧
    (startup ⟨.ok 200 (.json (some ⟨some (.n 9), some (.n 9), some (.n 9), some (.n 9)⟩)),
        .content [(1, 3), (2, 5), (3, 0), (4, 1)], 1000⟩).votes
      ≠ [(1, 9), (2, 9), (3, 9), (4, 9)] := by
  refine ⟨by decide, by decide, by decide⟩

/-- C1 (amended): startup initializes the tally from the local file alone —
the file's contents when present and parseable, all zeros otherwise — sets the
pending counter to 0 and the timestamp to the start time, and never consults
the remote state (`fetch_votes_from_thingspeak` is not called by `main`).
This runs once, producing the state the processing loop starts from. -/
theorem C1_amended_startup_reads_local_only (e : Env) :
    ((startup e).votes = match e.file with
      | .content d => d
      | _ => initVotes) ∧
    (startup e).pending = 0 ∧
    (startup e).lastUpload = e.startTime ∧
    (∀ r : FetchResponse, startup ⟨r, e.file, e.startTime⟩ = startup e) := by
  obtain ⟨re, f, t⟩ := e
  cases f <;> simp [startup, load_votes_from_file, initState]

/-- C2: `should_upload` fires exactly when the elapsed time since the last
successful upload reaches `UPLOAD_INTERVAL` and votes are pending; a
successful push (status 200, body not the "0" sentinel) zeroes the pending
counter and stamps the time; a transport error, a non-200 status, and the "0"
sentinel each leave the state untouched and report failure. -/
theorem C2_upload_scheduler_and_push_effects (st : BridgeState) (now : Int) :
    (should_upload st now = true ↔
      UPLOAD_INTERVAL ≤ now - st.lastUpload ∧ 0 < st.pending) ∧
    (∀ (status : Nat) (body : String), status = 200 → body ≠ "0" →
      upload_to_thingspeak st now (.ok status body) =
        ({ st with pending := 0, lastUpload := now }, true)) ∧
    (upload_to_thingspeak st now .netError = (st, false)) ∧
    (∀ (status : Nat) (body : String), status ≠ 200 →
      upload_to_thingspeak st now (.ok status body) = (st, false)) ∧
    (∀ status : Nat, upload_to_thingspeak st now (.ok status "0") = (st, false)) := by
  refine ⟨?_, ?_, rfl, ?_, ?_⟩
  · simp [should_upload]
  · intro status body h1 h2
    simp [upload_to_thingspeak, h1, h2]
  · intro status body h1
    simp only [upload_to_thingspeak]
    rw [if_neg]
    rintro ⟨h200, -⟩
    exact h1 h200
  · intro status
    simp only [upload_to_thingspeak]
    rw [if_neg]
    rintro ⟨-, h0⟩
    exact h0 rfl

/-- C2 witness at a concrete state: two pending votes, 20 seconds elapsed. -/
theorem C2_witness :
    should_upload ⟨initVotes, 2, 0⟩ 20 = true ∧
    upload_to_thingspeak ⟨initVotes, 2, 0⟩ 20 (.ok 200 "77")
      = (⟨initVotes, 0, 20⟩, true) ∧
    upload_to_thingspeak ⟨initVotes, 2, 0⟩ 20 (.ok 200 "0")
      = (⟨initVotes, 2, 0⟩, false) :=
  ⟨((C2_upload_scheduler_and_push_effects ⟨initVotes, 2, 0⟩ 20).1).mpr (by decide),
   (C2_upload_scheduler_and_push_effects ⟨initVotes, 2, 0⟩ 20).2.1 200 "77" rfl
     (by decide),
   (C2_upload_scheduler_and_push_effects ⟨initVotes, 2, 0⟩ 20).2.2.2.2 200⟩

/-- C3: starting from the initial state, `n` calls of `record_vote` — that is,
`process_vote` on a valid `VOTE,id` line for a known candidate — leave that
candidate's count at `n` and the pending counter at `n`, and every one of the
`n` calls returned true. -/
theorem C3_repeated_record_vote (cid : Int) (line : String)
    (hp : parseVote line = some cid) (hm : dictMem initVotes cid = true)
    (n : Nat) :
    dictGet (recordN line initState n).votes cid = n ∧
    (recordN line initState n).pending = n ∧
    (∀ k : Nat, k < n →
      (process_vote (recordN line initState k) line).accepted = true) := by
  obtain ⟨hc, hpend, -, -⟩ := recordN_spec line cid hp initState hm n
  refine ⟨?_, ?_, ?_⟩
  · rw [hc]
    have h0 : dictGet initState.votes cid = 0 := dictGet_initVotes cid
    rw [h0]
    ring
  · rw [hpend]
    show (0 : Int) + n = n
    ring
  · intro k _
    exact (recordN_spec line cid hp initState hm k).2.2.2

/-- C3 witness: three votes for candidate 2 from the initial state. -/
theorem C3_witness :
    parseVote ("VOTE,2") = some 2 ∧
    dictMem initVotes 2 = true ∧
    dictGet (recordN ("VOTE,2") initState 3).votes 2 = 3 ∧
    (recordN ("VOTE,2") initState 3).pending = 3 ∧
    (process_vote (recordN ("VOTE,2") initState 2) ("VOTE,2")).accepted = true :=
  ⟨by decide, by decide,
   (C3_repeated_record_vote 2 ("VOTE,2") (by decide) (by decide) 3).1,
   (C3_repeated_record_vote 2 ("VOTE,2") (by decide) (by decide) 3).2.1,
   (C3_repeated_record_vote 2 ("VOTE,2") (by decide) (by decide) 3).2.2 2
     (by decide)⟩

/-- C4: `VOTE,2` parses as a vote for candidate 2; `READY`, the empty line,
`VOTE,abc` and `VOTE,1,2` are all "not a vote"; and every line is either
accepted or a complete no-op — the embedding of "no exception reaches the
caller" (the one `int(...)` ValueError is caught inside `process_vote`). -/
theorem C4_event_parser_cases :
    parseVote ("VOTE,2") = some 2 ∧
    parseVote ("READY") = none ∧
    parseVote ("") = none ∧
    parseVote ("VOTE,abc") = none ∧
    parseVote ("VOTE,1,2") = none ∧
    (∀ (st : BridgeState) (line : String),
      (process_vote st line).accepted = true ∨
        process_vote st line = ⟨st, false, false, false⟩) :=
  ⟨by decide, by decide, by decide, by decide, by decide, process_vote_total⟩

/-- C5: a vote line for a candidate id outside the tally's key set returns
false and changes nothing: same state, no audit append, no persistence
write. -/
theorem C5_unknown_candidate_noop (st : BridgeState) (line : String) (cid : Int)
    (hp : parseVote line = some cid) (hm : dictMem st.votes cid = false) :
    process_vote st line = ⟨st, false, false, false⟩ :=
  process_vote_reject_unknown st line cid hp hm

/-- C5 witness: candidate 7 is unknown; `VOTE,7` is a no-op. -/
theorem C5_witness :
    parseVote ("VOTE,7") = some 7 ∧
    dictMem initState.votes 7 = false ∧
    process_vote initState ("VOTE,7") = ⟨initState, false, false, false⟩ :=
  ⟨by decide, by decide,
   C5_unknown_candidate_noop initState ("VOTE,7") 7 (by decide) (by decide)⟩

/-- C6: along any run (states reachable from the post-startup state by
processing-loop steps) the pending counter stays non-negative, every step is
monotone on each candidate's count, and a step that takes the pending counter
from non-zero to zero can only be an upload that succeeded. -/
theorem C6_run_invariants (e : Env) (s s' : BridgeState)
    (hr : Reachable (startup e) s) (hs : Step s s') :
    0 ≤ s.pending ∧
    (∀ k : Int, dictGet s.votes k ≤ dictGet s'.votes k) ∧
    (s'.pending = 0 → s.pending ≠ 0 →
      ∃ (now : Int) (resp : UploadResponse),
        s' = (upload_to_thingspeak s now resp).1 ∧
          (upload_to_thingspeak s now resp).2 = true) := by
  have h0 : 0 ≤ s.pending :=
    reachable_pending_nonneg hr (le_of_eq (startup_pending e).symm)
  refine ⟨h0, fun k => hs.votes_mono k, ?_⟩
  intro hz hnz
  cases hs with
  | line l =>
    exfalso
    rcases process_vote_pending s l with h1 | h1 <;> rw [h1] at hz <;> omega
  | upload now resp hgate =>
    rcases upload_to_thingspeak_cases s now resp with h1 | h1
    · exact absurd (by rw [h1] at hz; exact hz) hnz
    · exact ⟨now, resp, rfl, by rw [h1]⟩
  | finalUpload now resp hpos =>
    rcases upload_to_thingspeak_cases s now resp with h1 | h1
    · exact absurd (by rw [h1] at hz; exact hz) hnz
    · exact ⟨now, resp, rfl, by rw [h1]⟩

/-- C6 witness: one loop step from a fresh start (remote down, no file). -/
theorem C6_witness :
    0 ≤ (startup ⟨.netError, .absent, 0⟩).pending ∧
    dictGet (startup ⟨.netError, .absent, 0⟩).votes 1 ≤
      dictGet (process_vote (startup ⟨.netError, .absent, 0⟩)
        ("VOTE,1")).state.votes 1 :=
  ⟨(C6_run_invariants ⟨.netError, .absent, 0⟩ _ _ Relation.ReflTransGen.refl
      (Step.line _ ("VOTE,1"))).1,
   (C6_run_invariants ⟨.netError, .absent, 0⟩ _ _ Relation.ReflTransGen.refl
      (Step.line _ ("VOTE,1"))).2.1 1⟩

/-- C7: the interrupt handler attempts the final upload exactly when votes are
pending, exits with code 0 whatever the upload outcome, and does so even when
the minimum interval has not elapsed (a moment when `should_upload` itself
says no). -/
theorem C7_shutdown_final_flush (st : BridgeState) (now : Int)
    (resp : UploadResponse) :
    (shutdown st now resp).finalUploadAttempted = decide (0 < st.pending) ∧
    (shutdown st now resp).exitCode = 0 ∧
    (now - st.lastUpload < UPLOAD_INTERVAL → 0 < st.pending →
      (shutdown st now resp).finalUploadAttempted = true ∧
        should_upload st now = false) := by
  by_cases hp : st.pending > 0
  · refine ⟨by simp [shutdown, hp], by simp [shutdown, hp], ?_⟩
    intro h1 _
    refine ⟨by simp [shutdown, hp], ?_⟩
    simp only [UPLOAD_INTERVAL] at h1
    have hlt : ¬ ((15 : Int) ≤ now - st.lastUpload) := by omega
    simp [should_upload, UPLOAD_INTERVAL, hlt]
  · refine ⟨by simp [shutdown, hp], by simp [shutdown, hp], ?_⟩
    intro _ h2
    exact absurd h2 hp

/-- C7 witness: three pending votes, only 5 seconds elapsed, remote down: the
final upload is still attempted, fails, and the exit code is 0. -/
theorem C7_witness :
    (shutdown ⟨initVotes, 3, 0⟩ 5 .netError).finalUploadAttempted = true ∧
    (shutdown ⟨initVotes, 3, 0⟩ 5 .netError).exitCode = 0 ∧
    should_upload ⟨initVotes, 3, 0⟩ 5 = false :=
  ⟨((C7_shutdown_final_flush ⟨initVotes, 3, 0⟩ 5 .netError).2.2 (by decide)
      (by decide)).1,
   (C7_shutdown_final_flush ⟨initVotes, 3, 0⟩ 5 .netError).2.1,
   ((C7_shutdown_final_flush ⟨initVotes, 3, 0⟩ 5 .netError).2.2 (by decide)
      (by decide)).2⟩

/-- C8: every failure outcome of the remote fetch — transport error, non-200
status, malformed JSON, falsy data, and a feed without `field1` — makes
`fetch_votes_from_thingspeak` report False rather than letting the exception
escape (the try/except of the source is total in the model). -/
theorem C8_fetch_failures_yield_unavailable (st : BridgeState) (f : LocalFile) :
    ((fetch_votes_from_thingspeak st .netError f).2 = false) ∧
    (∀ (status : Nat) (body : Body), status ≠ 200 →
      (fetch_votes_from_thingspeak st (.ok status body) f).2 = false) ∧
    ((fetch_votes_from_thingspeak st (.ok 200 .malformed) f).2 = false) ∧
    ((fetch_votes_from_thingspeak st (.ok 200 (.json none)) f).2 = false) ∧
    (∀ feed : Feed, feed.field1 = none →
      (fetch_votes_from_thingspeak st (.ok 200 (.json (some feed))) f).2
        = false) := by
  refine ⟨rfl, ?_, rfl, rfl, ?_⟩
  · intro status body h
    simp [fetch_votes_from_thingspeak, fetchTry, h]
  · intro feed h
    simp [fetch_votes_from_thingspeak, fetchTry, h]

/-- C8 witness: the five failure shapes at the initial state. -/
theorem C8_witness :
    (fetch_votes_from_thingspeak initState .netError .absent).2 = false ∧
    (fetch_votes_from_thingspeak initState (.ok 404 (.json none)) .absent).2
      = false ∧
    (fetch_votes_from_thingspeak initState (.ok 200 .malformed) .absent).2
      = false ∧
    (fetch_votes_from_thingspeak initState (.ok 200 (.json none)) .absent).2
      = false ∧
    (fetch_votes_from_thingspeak initState
        (.ok 200 (.json (some ⟨none, none, none, none⟩))) .absent).2 = false :=
  ⟨(C8_fetch_failures_yield_unavailable initState .absent).1,
   (C8_fetch_failures_yield_unavailable initState .absent).2.1 404 (.json none)
     (by decide),
   (C8_fetch_failures_yield_unavailable initState .absent).2.2.1,
   (C8_fetch_failures_yield_unavailable initState .absent).2.2.2.1,
   (C8_fetch_failures_yield_unavailable initState .absent).2.2.2.2
     ⟨none, none, none, none⟩ rfl⟩

/-- C9: the snapshot taken by `upload_to_thingspeak` is stable: any chain of
steps with no intervening vote events leaves it unchanged (so two snapshots
bracket to equal tallies), and it reads only the vote counts — it is a copy of
the four values, never the mutable dict itself (the payload is a fresh
structure, so later mutation of the state cannot reach into it). -/
theorem C9_snapshot_idempotent (s s' : BridgeState)
    (h : Relation.ReflTransGen NonVoteStep s s') :
    snapshot s' = snapshot s ∧
    (∀ p lu : Int, snapshot ⟨s.votes, p, lu⟩ = snapshot s) := by
  refine ⟨?_, fun p lu => rfl⟩
  induction h with
  | refl => rfl
  | tail _ hstep ih => rw [hstep.snapshot_eq, ih]

/-- C9 witness: a rejected `READY` line between two snapshots. -/
theorem C9_witness :
    snapshot (process_vote ⟨initVotes, 1, 0⟩ ("READY")).state
      = snapshot ⟨initVotes, 1, 0⟩ :=
  (C9_snapshot_idempotent ⟨initVotes, 1, 0⟩ _
    (Relation.ReflTransGen.single (NonVoteStep.line _ ("READY") (by decide)))).1

/-- C10: a 200 response whose `field1` is the numeric string "7" but whose
`field2` is the non-numeric string "abc" makes the fetch return False without
raising, yet candidate 1's count has already been overwritten with 7 while
candidates 2-4 keep their pre-call values (no local file to fall back on): the
remote fetch is not atomic on error. -/
theorem C10_fetch_partial_overwrite :
    fetch_votes_from_thingspeak ⟨[(1, 100), (2, 200), (3, 300), (4, 400)], 0, 0⟩
        (.ok 200 (.json (some ⟨some (.s "7"), some (.s "abc"),
          some (.n 1), some (.n 2)⟩)))
        .absent
      = (⟨[(1, 7), (2, 200), (3, 300), (4, 400)], 0, 0⟩, false) := by
  decide

end Bridge
